import Mathlib

/-!
Verification development for the worker utility layer of gotosocial
(internal/processing/workers/util.go): the deletion cascade (wipeStatus),
the follower migrator (redirectFollowers), the per-account counter
manager (increment/decrement of statuses, followers, following and
follow-request counts), and the approval issuer (approveFave,
approveReply, approveAnnounce).

External collaborators (the database, the media processor, the account
processor, the timeline surface, the scheduler, the ULID generator) are
modelled as oracles gathered in environment structures; each embedded
operation returns, besides its result, the trace of collaborator calls
it made, so that frame and best-effort/fail-fast properties can be
stated.  Machine integers of the Go code are modelled as Int.
-/

namespace GtsWorkers

/-- The interaction type tag of gtsmodel (InteractionLike,
InteractionReply, InteractionAnnounce). -/
inductive InteractionType where
  | like
  | reply
  | announce
  deriving DecidableEq, Repr

/-- gtsmodel.Status, restricted to the fields util.go reads or writes:
identifier, URI, owning account, attachment and mention id lists, poll
id ("" when absent), boost-of and in-reply-to account references (id
plus the username used for accept-URI generation), creation time, and
the approval-related flags. -/
structure Status where
  id : String
  uri : String
  accountID : String
  attachmentIDs : List String
  mentionIDs : List String
  pollID : String
  boostOfAccountID : String
  boostOfAccountUsername : String
  inReplyToAccountID : String
  inReplyToAccountUsername : String
  createdAt : Nat
  pendingApproval : Bool
  preApproved : Bool
  approvedByURI : String
  deriving DecidableEq, Repr

/-- gtsmodel.StatusFave, restricted to the fields util.go reads or
writes. -/
structure StatusFave where
  id : String
  accountID : String
  targetAccountID : String
  targetAccountUsername : String
  uri : String
  pendingApproval : Bool
  preApproved : Bool
  approvedByURI : String
  deriving DecidableEq, Repr

/-- gtsmodel.Account, restricted to what util.go uses. -/
structure Account where
  id : String
  uri : String
  username : String
  deriving DecidableEq, Repr

/-- gtsmodel.Follow, restricted to what redirectFollowers uses:
the follower, the follow target, and the display preferences carried
over on redirect. -/
structure Follow where
  accountID : String
  targetAccountID : String
  showReblogs : Bool
  notify : Bool
  deriving DecidableEq, Repr

/-- gtsmodel.InteractionApproval as built by the approve operations
(the in-memory Account / InteractingAccount references are kept as ids;
only the approver's username feeds the accept URI and is taken from the
subject). -/
structure InteractionApproval where
  id : String
  accountID : String
  interactingAccountID : String
  interactionURI : String
  interactionType : InteractionType
  uri : String
  deriving DecidableEq, Repr

/-- gtsmodel.AccountStats: the four aggregate counters plus the
last-status timestamp.  Go ints are modelled as Int so that the
clamp-at-zero branch is meaningful. -/
structure AccountStats where
  statusesCount : Int
  followersCount : Int
  followingCount : Int
  followRequestsCount : Int
  lastStatusAt : Nat
  deriving DecidableEq, Repr

/-! ## Error aggregator

gtserror.MultiError is not part of the excerpt; it is modelled from the
spec as an ordered list of error messages. -/

/-- A MultiError is the ordered sequence of appended failure
messages. -/
abbrev MultiError := List String

/-- Modelled from the spec: gtserror.MultiError.Combine returns a
success (none) if and only if zero failures were appended, and
otherwise one combined error enumerating every appended failure; the
combined error is modelled as the full message list. -/
def MultiError.combine (errs : MultiError) : Option (List String) :=
  if errs.isEmpty then none else some errs

/-! ## Counter manager

Each Go operation locks on the account URI, lazily populates the stats
record, applies its delta to exactly one counter (status increments
also stamp last_status_at), clamps decrements at zero, and persists
only the named columns via UpdateAccountStats.  The lock itself is a
concurrency artefact outside the shallow embedding; the read-modify-
write body is embedded as a pure stats transformation returning the new
stats together with the column list passed to UpdateAccountStats. -/

/-- Stats delta of incrementStatusesCount: statuses_count++ and
last_status_at := status.CreatedAt; columns statuses_count,
last_status_at. -/
def incrementStatusesCountStats (stats : AccountStats) (statusCreatedAt : Nat) :
    AccountStats × List String :=
  ({ stats with
      statusesCount := stats.statusesCount + 1,
      lastStatusAt := statusCreatedAt },
   ["statuses_count", "last_status_at"])

/-- Stats delta of decrementStatusesCount: statuses_count--, then clamp
to 0 if negative; column statuses_count. -/
def decrementStatusesCountStats (stats : AccountStats) :
    AccountStats × List String :=
  let stats := { stats with statusesCount := stats.statusesCount - 1 }
  let stats :=
    if stats.statusesCount < 0 then { stats with statusesCount := 0 } else stats
  (stats, ["statuses_count"])

/-- Stats delta of incrementFollowersCount: followers_count++; column
followers_count. -/
def incrementFollowersCountStats (stats : AccountStats) :
    AccountStats × List String :=
  ({ stats with followersCount := stats.followersCount + 1 },
   ["followers_count"])

/-- Stats delta of decrementFollowersCount: followers_count--, then
clamp to 0 if negative; column followers_count. -/
def decrementFollowersCountStats (stats : AccountStats) :
    AccountStats × List String :=
  let stats := { stats with followersCount := stats.followersCount - 1 }
  let stats :=
    if stats.followersCount < 0 then { stats with followersCount := 0 } else stats
  (stats, ["followers_count"])

/-- Stats delta of incrementFollowingCount: following_count++; column
following_count. -/
def incrementFollowingCountStats (stats : AccountStats) :
    AccountStats × List String :=
  ({ stats with followingCount := stats.followingCount + 1 },
   ["following_count"])

/-- Stats delta of decrementFollowingCount: following_count--, then
clamp to 0 if negative; column following_count. -/
def decrementFollowingCountStats (stats : AccountStats) :
    AccountStats × List String :=
  let stats := { stats with followingCount := stats.followingCount - 1 }
  let stats :=
    if stats.followingCount < 0 then { stats with followingCount := 0 } else stats
  (stats, ["following_count"])

/-- Stats delta of incrementFollowRequestsCount: follow_requests_count++;
column follow_requests_count. -/
def incrementFollowRequestsCountStats (stats : AccountStats) :
    AccountStats × List String :=
  ({ stats with followRequestsCount := stats.followRequestsCount + 1 },
   ["follow_requests_count"])

/-- Stats delta of decrementFollowRequestsCount: follow_requests_count--,
then clamp to 0 if negative; column follow_requests_count. -/
def decrementFollowRequestsCountStats (stats : AccountStats) :
    AccountStats × List String :=
  let stats := { stats with followRequestsCount := stats.followRequestsCount - 1 }
  let stats :=
    if stats.followRequestsCount < 0 then { stats with followRequestsCount := 0 }
    else stats
  (stats, ["follow_requests_count"])

/-- Oracles for the counter manager: PopulateAccountStats (keyed by
account id) and UpdateAccountStats (receiving the stats record and the
column list; some e models a db error). -/
structure StatsEnv where
  populateAccountStats : String → Except String AccountStats
  updateAccountStats : AccountStats → List String → Option String

/-- incrementStatusesCount: populate stats, apply the delta, persist
the named columns.  Returns the stats record handed to
UpdateAccountStats. -/
def incrementStatusesCount (env : StatsEnv) (account : Account) (status : Status) :
    Except String AccountStats :=
  match env.populateAccountStats account.id with
  | .error e => .error ("db error getting account stats: " ++ e)
  | .ok stats =>
      let (stats, fields) := incrementStatusesCountStats stats status.createdAt
      match env.updateAccountStats stats fields with
      | some e => .error ("db error updating account stats: " ++ e)
      | none => .ok stats

/-- decrementStatusesCount: populate stats, decrement with clamp,
persist statuses_count. -/
def decrementStatusesCount (env : StatsEnv) (account : Account) :
    Except String AccountStats :=
  match env.populateAccountStats account.id with
  | .error e => .error ("db error getting account stats: " ++ e)
  | .ok stats =>
      let (stats, fields) := decrementStatusesCountStats stats
      match env.updateAccountStats stats fields with
      | some e => .error ("db error updating account stats: " ++ e)
      | none => .ok stats

/-- incrementFollowersCount: populate stats, increment, persist
followers_count. -/
def incrementFollowersCount (env : StatsEnv) (account : Account) :
    Except String AccountStats :=
  match env.populateAccountStats account.id with
  | .error e => .error ("db error getting account stats: " ++ e)
  | .ok stats =>
      let (stats, fields) := incrementFollowersCountStats stats
      match env.updateAccountStats stats fields with
      | some e => .error ("db error updating account stats: " ++ e)
      | none => .ok stats

/-- decrementFollowersCount: populate stats, decrement with clamp,
persist followers_count. -/
def decrementFollowersCount (env : StatsEnv) (account : Account) :
    Except String AccountStats :=
  match env.populateAccountStats account.id with
  | .error e => .error ("db error getting account stats: " ++ e)
  | .ok stats =>
      let (stats, fields) := decrementFollowersCountStats stats
      match env.updateAccountStats stats fields with
      | some e => .error ("db error updating account stats: " ++ e)
      | none => .ok stats

/-- incrementFollowingCount: populate stats, increment, persist
following_count. -/
def incrementFollowingCount (env : StatsEnv) (account : Account) :
    Except String AccountStats :=
  match env.populateAccountStats account.id with
  | .error e => .error ("db error getting account stats: " ++ e)
  | .ok stats =>
      let (stats, fields) := incrementFollowingCountStats stats
      match env.updateAccountStats stats fields with
      | some e => .error ("db error updating account stats: " ++ e)
      | none => .ok stats

/-- decrementFollowingCount: populate stats, decrement with clamp,
persist following_count. -/
def decrementFollowingCount (env : StatsEnv) (account : Account) :
    Except String AccountStats :=
  match env.populateAccountStats account.id with
  | .error e => .error ("db error getting account stats: " ++ e)
  | .ok stats =>
      let (stats, fields) := decrementFollowingCountStats stats
      match env.updateAccountStats stats fields with
      | some e => .error ("db error updating account stats: " ++ e)
      | none => .ok stats

/-- incrementFollowRequestsCount: populate stats, increment, persist
follow_requests_count. -/
def incrementFollowRequestsCount (env : StatsEnv) (account : Account) :
    Except String AccountStats :=
  match env.populateAccountStats account.id with
  | .error e => .error ("db error getting account stats: " ++ e)
  | .ok stats =>
      let (stats, fields) := incrementFollowRequestsCountStats stats
      match env.updateAccountStats stats fields with
      | some e => .error ("db error updating account stats: " ++ e)
      | none => .ok stats

/-- decrementFollowRequestsCount: populate stats, decrement with clamp,
persist follow_requests_count. -/
def decrementFollowRequestsCount (env : StatsEnv) (account : Account) :
    Except String AccountStats :=
  match env.populateAccountStats account.id with
  | .error e => .error ("db error getting account stats: " ++ e)
  | .ok stats =>
      let (stats, fields) := decrementFollowRequestsCountStats stats
      match env.updateAccountStats stats fields with
      | some e => .error ("db error updating account stats: " ++ e)
      | none => .ok stats

/-- One of the four decrement operations, for stating properties of
arbitrary interleavings of decrements on one stats record. -/
inductive DecOp where
  | statuses
  | followers
  | following
  | followRequests
  deriving DecidableEq, Repr

/-- Apply the stats delta of the given decrement operation. -/
def applyDecOp (op : DecOp) (stats : AccountStats) : AccountStats :=
  match op with
  | .statuses => (decrementStatusesCountStats stats).1
  | .followers => (decrementFollowersCountStats stats).1
  | .following => (decrementFollowingCountStats stats).1
  | .followRequests => (decrementFollowRequestsCountStats stats).1

/-- Apply a sequence of decrement operations, first element first. -/
def applyDecOps (ops : List DecOp) (stats : AccountStats) : AccountStats :=
  match ops with
  | [] => stats
  | op :: rest => applyDecOps rest (applyDecOp op stats)

/-! ## Approval issuer -/

/-- Modelled from the spec: uris.GenerateURIForAccept (not part of the
excerpt) derives the approval URI from the approver's identity
(username) and the freshly generated identifier. -/
def generateURIForAccept (username : String) (newID : String) : String :=
  "/users/" ++ username ++ "/accept/" ++ newID

/-- Oracles for the approval issuer: the ULID generator, and the
persistence calls PutInteractionApproval, UpdateStatusFave and
UpdateStatus (each receiving the record, the latter two also the column
list; some e models a db error). -/
structure ApprovalEnv where
  newULID : String
  putInteractionApproval : InteractionApproval → Option String
  updateStatusFave : StatusFave → List String → Option String
  updateStatus : Status → List String → Option String

/-- approveFave: build and store an InteractionApproval (type
InteractionLike) for a fave, then mark the fave approved and persist
the pending_approval and approved_by_uri columns.  Returns the
approval, the mutated fave, and the column list handed to
UpdateStatusFave. -/
def approveFave (env : ApprovalEnv) (fave : StatusFave) :
    Except String (InteractionApproval × StatusFave × List String) :=
  let newID := env.newULID
  let approval : InteractionApproval :=
    { id := newID
      accountID := fave.targetAccountID
      interactingAccountID := fave.accountID
      interactionURI := fave.uri
      interactionType := .like
      uri := generateURIForAccept fave.targetAccountUsername newID }
  match env.putInteractionApproval approval with
  | some e => .error ("db error inserting interaction approval: " ++ e)
  | none =>
      let fave :=
        { fave with
            pendingApproval := false
            preApproved := false
            approvedByURI := approval.uri }
      match env.updateStatusFave fave ["pending_approval", "approved_by_uri"] with
      | some e => .error ("db error updating status fave: " ++ e)
      | none => .ok (approval, fave, ["pending_approval", "approved_by_uri"])

/-- approveReply: build and store an InteractionApproval (type
InteractionReply) for a reply status, then mark the status approved and
persist the pending_approval and approved_by_uri columns. -/
def approveReply (env : ApprovalEnv) (status : Status) :
    Except String (InteractionApproval × Status × List String) :=
  let newID := env.newULID
  let approval : InteractionApproval :=
    { id := newID
      accountID := status.inReplyToAccountID
      interactingAccountID := status.accountID
      interactionURI := status.uri
      interactionType := .reply
      uri := generateURIForAccept status.inReplyToAccountUsername newID }
  match env.putInteractionApproval approval with
  | some e => .error ("db error inserting interaction approval: " ++ e)
  | none =>
      let status :=
        { status with
            pendingApproval := false
            preApproved := false
            approvedByURI := approval.uri }
      match env.updateStatus status ["pending_approval", "approved_by_uri"] with
      | some e => .error ("db error updating status: " ++ e)
      | none => .ok (approval, status, ["pending_approval", "approved_by_uri"])

/-- approveAnnounce: build and store an InteractionApproval for a boost
wrapper status, then mark it approved and persist the pending_approval
and approved_by_uri columns.  The source sets the InteractionType of
the approval to InteractionReply here (util.go line 588), which the
embedding reproduces. -/
def approveAnnounce (env : ApprovalEnv) (boost : Status) :
    Except String (InteractionApproval × Status × List String) :=
  let newID := env.newULID
  let approval : InteractionApproval :=
    { id := newID
      accountID := boost.boostOfAccountID
      interactingAccountID := boost.accountID
      interactionURI := boost.uri
      interactionType := .reply
      uri := generateURIForAccept boost.boostOfAccountUsername newID }
  match env.putInteractionApproval approval with
  | some e => .error ("db error inserting interaction approval: " ++ e)
  | none =>
      let boost :=
        { boost with
            pendingApproval := false
            preApproved := false
            approvedByURI := approval.uri }
      match env.updateStatus boost ["pending_approval", "approved_by_uri"] with
      | some e => .error ("db error updating boost wrapper status: " ++ e)
      | none => .ok (approval, boost, ["pending_approval", "approved_by_uri"])

/-! ## Deletion cascade (wipeStatus) -/

/-- One collaborator call made by wipeStatus, recorded with the
identifiers it was invoked on. -/
inductive WipeCall where
  | mediaDelete (attachmentID : String)
  | mediaUnattach (accountID : String) (attachmentID : String)
  | deleteMentionByID (mentionID : String)
  | deleteNotificationsForStatus (statusID : String)
  | deleteStatusBookmarksForStatus (statusID : String)
  | deleteStatusFavesForStatus (statusID : String)
  | deletePollByID (pollID : String)
  | deletePollVotes (pollID : String)
  | schedulerCancel (pollID : String)
  | getStatusBoosts (statusID : String)
  | deleteStatusFromTimelines (statusID : String)
  | deleteStatusFromConversations (statusID : String)
  | deleteStatusByID (statusID : String)
  deriving DecidableEq, Repr

/-- Oracles for wipeStatus.  Fallible unit-returning collaborator calls
yield some e on failure and none on success; GetStatusBoosts yields the
boost statuses or a db error. -/
structure WipeEnv where
  mediaDelete : String → Option String
  mediaUnattach : String → String → Option String
  deleteMentionByID : String → Option String
  deleteNotificationsForStatus : String → Option String
  deleteStatusBookmarksForStatus : String → Option String
  deleteStatusFavesForStatus : String → Option String
  deletePollByID : String → Option String
  deletePollVotes : String → Option String
  schedulerCancel : String → Bool
  getStatusBoosts : String → Except String (List Status)
  deleteStatusFromTimelines : String → Option String
  deleteStatusFromConversations : String → Option String
  deleteStatusByID : String → Option String

/-- One cascade step: the call made, and the error message appended to
the MultiError when the call failed (the Go code wraps the collaborator
error with a step annotation via Appendf). -/
def stepOf (call : WipeCall) (result : Option String) (label : String) :
    List WipeCall × List String :=
  ([call], (result.map fun e => label ++ ": " ++ e).toList)

/-- Concatenate the calls of a step sequence, in order. -/
def callsOf (steps : List (List WipeCall × List String)) : List WipeCall :=
  (steps.map Prod.fst).flatten

/-- Concatenate the appended error messages of a step sequence, in
order. -/
def errsOf (steps : List (List WipeCall × List String)) : List String :=
  (steps.map Prod.snd).flatten

/-- The boost list the cascade iterates over: the statuses returned by
GetStatusBoosts, or the empty list when the fetch failed. -/
def boostsReturned (env : WipeEnv) (s : Status) : List Status :=
  match env.getStatusBoosts s.id with
  | .ok boosts => boosts
  | .error _ => []

/-- The two cascade steps run for one boost of the status: remove the
boost from all timelines, then delete the boost status record. -/
def boostStep (env : WipeEnv) (boost : Status) : List WipeCall × List String :=
  let stepA :=
    stepOf (.deleteStatusFromTimelines boost.id)
      (env.deleteStatusFromTimelines boost.id)
      "error deleting boost from timelines"
  let stepB :=
    stepOf (.deleteStatusByID boost.id) (env.deleteStatusByID boost.id)
      "error deleting boost"
  (stepA.1 ++ stepB.1, stepA.2 ++ stepB.2)

/-- The step sequence of wipeStatus, mirroring the order of the Go
code: attachments (delete or unattach), mentions, notifications,
bookmarks, faves, poll cleanup (delete poll, delete votes, fire-and-
forget scheduler cancel) when the status has a poll id, the boosts
fetch, per-boost timeline removal and deletion, then timeline removal,
conversation removal and deletion of the status itself. -/
def wipeSteps (env : WipeEnv) (s : Status) (deleteAttachments : Bool) :
    List (List WipeCall × List String) :=
  (if deleteAttachments then
    s.attachmentIDs.map fun aID =>
      stepOf (.mediaDelete aID) (env.mediaDelete aID) "error deleting media"
  else
    s.attachmentIDs.map fun aID =>
      stepOf (.mediaUnattach s.accountID aID) (env.mediaUnattach s.accountID aID)
        "error unattaching media")
  ++ (s.mentionIDs.map fun mID =>
      stepOf (.deleteMentionByID mID) (env.deleteMentionByID mID)
        "error deleting status mention")
  ++ [stepOf (.deleteNotificationsForStatus s.id)
        (env.deleteNotificationsForStatus s.id)
        "error deleting status notifications",
      stepOf (.deleteStatusBookmarksForStatus s.id)
        (env.deleteStatusBookmarksForStatus s.id)
        "error deleting status bookmarks",
      stepOf (.deleteStatusFavesForStatus s.id)
        (env.deleteStatusFavesForStatus s.id)
        "error deleting status faves"]
  ++ (if s.pollID ≠ "" then
      [stepOf (.deletePollByID s.pollID) (env.deletePollByID s.pollID)
         "error deleting status poll",
       stepOf (.deletePollVotes s.pollID) (env.deletePollVotes s.pollID)
         "error deleting status poll votes",
       -- the scheduler cancel result is discarded by the source
       ([WipeCall.schedulerCancel s.pollID], [])]
    else [])
  ++ (match env.getStatusBoosts s.id with
      | .ok _ => [([WipeCall.getStatusBoosts s.id], [])]
      | .error e =>
          [([WipeCall.getStatusBoosts s.id],
            ["error fetching status boosts: " ++ e])])
  ++ (boostsReturned env s).map (boostStep env)
  ++ [stepOf (.deleteStatusFromTimelines s.id)
        (env.deleteStatusFromTimelines s.id)
        "error deleting status from timelines",
      stepOf (.deleteStatusFromConversations s.id)
        (env.deleteStatusFromConversations s.id)
        "error deleting status from conversations",
      stepOf (.deleteStatusByID s.id) (env.deleteStatusByID s.id)
        "error deleting status"]

/-- wipeStatus: the trace of collaborator calls made (first component)
and the MultiError of appended step failures (second component). -/
def wipeStatus (env : WipeEnv) (s : Status) (deleteAttachments : Bool) :
    List WipeCall × MultiError :=
  (callsOf (wipeSteps env s deleteAttachments),
   errsOf (wipeSteps env s deleteAttachments))

/-- The return value of wipeStatus: errs.Combine(). -/
def wipeStatusResult (env : WipeEnv) (s : Status) (deleteAttachments : Bool) :
    Option (List String) :=
  MultiError.combine (wipeStatus env s deleteAttachments).2

/-- The calls wipeStatus makes, as a function of the status, the
deleteAttachments flag and the boost list alone: every step of the
cascade, independent of any collaborator failure. -/
def wipeTrace (s : Status) (deleteAttachments : Bool) (boosts : List Status) :
    List WipeCall :=
  (if deleteAttachments then s.attachmentIDs.map (WipeCall.mediaDelete ·)
   else s.attachmentIDs.map (WipeCall.mediaUnattach s.accountID ·))
  ++ s.mentionIDs.map (WipeCall.deleteMentionByID ·)
  ++ [WipeCall.deleteNotificationsForStatus s.id,
      WipeCall.deleteStatusBookmarksForStatus s.id,
      WipeCall.deleteStatusFavesForStatus s.id]
  ++ (if s.pollID ≠ "" then
      [WipeCall.deletePollByID s.pollID,
       WipeCall.deletePollVotes s.pollID,
       WipeCall.schedulerCancel s.pollID]
    else [])
  ++ [WipeCall.getStatusBoosts s.id]
  ++ (boosts.map fun boost =>
      [WipeCall.deleteStatusFromTimelines boost.id,
       WipeCall.deleteStatusByID boost.id]).flatten
  ++ [WipeCall.deleteStatusFromTimelines s.id,
      WipeCall.deleteStatusFromConversations s.id,
      WipeCall.deleteStatusByID s.id]

/-! ## Follower migrator (redirectFollowers) -/

/-- Result of the GetAccountLocalFollowers lookup: a follower list, the
db.ErrNoEntries condition (modelled from the spec: a no-entries lookup
carries no rows, so the loop below runs over nothing), or another db
error. -/
inductive FollowersResult where
  | ok (followers : List Follow)
  | noEntries
  | err (e : String)

/-- One collaborator call made by redirectFollowers, recorded with the
identifiers it was invoked on (for follow creation also the carried
Reblogs and Notify preferences). -/
inductive RedirectCall where
  | getLocalFollowers (accountID : String)
  | getAccountByID (accountID : String)
  | followCreate (followerID : String) (targetID : String)
      (reblogs : Bool) (notify : Bool)
  | followRemove (followerID : String) (targetID : String)
  deriving DecidableEq, Repr

/-- Oracles for redirectFollowers: the local-followers lookup, the
account-by-id lookup, and the account processor's FollowCreate and
FollowRemove (which themselves perform store and outbound work). -/
structure RedirectEnv where
  getAccountLocalFollowers : String → FollowersResult
  getAccountByID : String → Except String Account
  followCreate : Account → String → Bool → Bool → Except String Unit
  followRemove : Account → String → Except String Unit

/-- The loop body of redirectFollowers for one follower edge: fetch the
follower's account (abort on error); unless the follower is the
migration target itself, send a new follow to the target carrying over
ShowReblogs and Notify (abort on error); then remove the old follow
(abort on error).  Returns the calls made for this follower and
whether it was processed without error. -/
def processFollower (env : RedirectEnv) (targetAcct : Account) (follow : Follow) :
    List RedirectCall × Bool :=
  match env.getAccountByID follow.accountID with
  | .error _ => ([.getAccountByID follow.accountID], false)
  | .ok followAccount =>
      if follow.accountID ≠ targetAcct.id then
        match env.followCreate followAccount targetAcct.id
            follow.showReblogs follow.notify with
        | .error _ =>
            ([.getAccountByID follow.accountID,
              .followCreate follow.accountID targetAcct.id
                follow.showReblogs follow.notify], false)
        | .ok _ =>
            match env.followRemove followAccount follow.targetAccountID with
            | .error _ =>
                ([.getAccountByID follow.accountID,
                  .followCreate follow.accountID targetAcct.id
                    follow.showReblogs follow.notify,
                  .followRemove follow.accountID follow.targetAccountID], false)
            | .ok _ =>
                ([.getAccountByID follow.accountID,
                  .followCreate follow.accountID targetAcct.id
                    follow.showReblogs follow.notify,
                  .followRemove follow.accountID follow.targetAccountID], true)
      else
        match env.followRemove followAccount follow.targetAccountID with
        | .error _ =>
            ([.getAccountByID follow.accountID,
              .followRemove follow.accountID follow.targetAccountID], false)
        | .ok _ =>
            ([.getAccountByID follow.accountID,
              .followRemove follow.accountID follow.targetAccountID], true)

/-- The follower loop of redirectFollowers: process each follower in
order, stopping at (and returning false after) the first follower whose
processing fails. -/
def processFollowers (env : RedirectEnv) (targetAcct : Account) :
    List Follow → List RedirectCall × Bool
  | [] => ([], true)
  | follow :: rest =>
      let r := processFollower env targetAcct follow
      if r.2 then
        let rr := processFollowers env targetAcct rest
        (r.1 ++ rr.1, rr.2)
      else (r.1, false)

/-- redirectFollowers: fetch the local followers of originAcct (a
no-entries lookup yields the empty loop; any other lookup error returns
false), then run the follower loop.  Returns the calls made and the ok
flag. -/
def redirectFollowers (env : RedirectEnv) (originAcct targetAcct : Account) :
    List RedirectCall × Bool :=
  match env.getAccountLocalFollowers originAcct.id with
  | .err _ => ([.getLocalFollowers originAcct.id], false)
  | .noEntries => ([.getLocalFollowers originAcct.id], true)
  | .ok followers =>
      let r := processFollowers env targetAcct followers
      (.getLocalFollowers originAcct.id :: r.1, r.2)

/-! ## Concrete inputs used by the closed evaluation theorems -/

/-- An approval environment in which every persistence call
succeeds. -/
def okApprovalEnv : ApprovalEnv :=
  { newULID := "01AAAA"
    putInteractionApproval := fun _ => none
    updateStatusFave := fun _ _ => none
    updateStatus := fun _ _ => none }

/-- A pending fave of account acct-faver on a status of account
acct-target, with the pre-approval flag set. -/
def sampleFave : StatusFave :=
  { id := "fave1"
    accountID := "acct-faver"
    targetAccountID := "acct-target"
    targetAccountUsername := "target"
    uri := "fave-uri-1"
    pendingApproval := true
    preApproved := true
    approvedByURI := "" }

/-- A pending reply by acct-replier to a status of acct-op. -/
def sampleReply : Status :=
  { id := "reply1"
    uri := "reply-uri-1"
    accountID := "acct-replier"
    attachmentIDs := []
    mentionIDs := []
    pollID := ""
    boostOfAccountID := ""
    boostOfAccountUsername := ""
    inReplyToAccountID := "acct-op"
    inReplyToAccountUsername := "op"
    createdAt := 10
    pendingApproval := true
    preApproved := true
    approvedByURI := "" }

/-- A pending boost by acct-booster of a status of acct-original. -/
def sampleBoost : Status :=
  { id := "boost1"
    uri := "boost-uri-1"
    accountID := "acct-booster"
    attachmentIDs := []
    mentionIDs := []
    pollID := ""
    boostOfAccountID := "acct-original"
    boostOfAccountUsername := "original"
    inReplyToAccountID := ""
    inReplyToAccountUsername := ""
    createdAt := 20
    pendingApproval := true
    preApproved := false
    approvedByURI := "" }

/-- The approval approveFave builds for sampleFave under
okApprovalEnv. -/
def faveApprovalW : InteractionApproval :=
  { id := "01AAAA"
    accountID := "acct-target"
    interactingAccountID := "acct-faver"
    interactionURI := "fave-uri-1"
    interactionType := .like
    uri := "/users/target/accept/01AAAA" }

/-- sampleFave after approveFave marks it approved. -/
def faveMutatedW : StatusFave :=
  { sampleFave with
      pendingApproval := false
      preApproved := false
      approvedByURI := "/users/target/accept/01AAAA" }

/-- The approval approveReply builds for sampleReply under
okApprovalEnv. -/
def replyApprovalW : InteractionApproval :=
  { id := "01AAAA"
    accountID := "acct-op"
    interactingAccountID := "acct-replier"
    interactionURI := "reply-uri-1"
    interactionType := .reply
    uri := "/users/op/accept/01AAAA" }

/-- sampleReply after approveReply marks it approved. -/
def replyMutatedW : Status :=
  { sampleReply with
      pendingApproval := false
      preApproved := false
      approvedByURI := "/users/op/accept/01AAAA" }

/-- The approval approveAnnounce builds for sampleBoost under
okApprovalEnv. -/
def announceApprovalW : InteractionApproval :=
  { id := "01AAAA"
    accountID := "acct-original"
    interactingAccountID := "acct-booster"
    interactionURI := "boost-uri-1"
    interactionType := .reply
    uri := "/users/original/accept/01AAAA" }

/-- sampleBoost after approveAnnounce marks it approved. -/
def announceMutatedW : Status :=
  { sampleBoost with
      pendingApproval := false
      preApproved := false
      approvedByURI := "/users/original/accept/01AAAA" }

/-- A stats record with statuses and follow-request counters already at
zero, so a further decrement exercises the clamp. -/
def sampleStats : AccountStats :=
  { statusesCount := 0
    followersCount := 1
    followingCount := 2
    followRequestsCount := 0
    lastStatusAt := 5 }

/-- A stats environment whose populate returns sampleStats and whose
update always succeeds. -/
def statsEnvOk : StatsEnv :=
  { populateAccountStats := fun _ => .ok sampleStats
    updateAccountStats := fun _ _ => none }

/-- A plain account for the counter witness. -/
def acctW : Account :=
  { id := "acct1", uri := "uri-acct1", username := "acct1" }

/-- The origin account of the migration witnesses. -/
def originAcctW : Account :=
  { id := "origin", uri := "uri-origin", username := "origin" }

/-- The target account of the migration witnesses. -/
def targetAcctW : Account :=
  { id := "target", uri := "uri-target", username := "target" }

/-- A follower of origin, no relation to target. -/
def followW1 : Follow :=
  { accountID := "f1", targetAccountID := "origin",
    showReblogs := true, notify := false }

/-- A second follower of origin, for whom follow creation fails in
redirectEnvFail. -/
def followW2 : Follow :=
  { accountID := "f2", targetAccountID := "origin",
    showReblogs := false, notify := true }

/-- A third follower of origin, after the failing one. -/
def followW3 : Follow :=
  { accountID := "f3", targetAccountID := "origin",
    showReblogs := true, notify := true }

/-- The target account itself as a follower of origin. -/
def followWTarget : Follow :=
  { accountID := "target", targetAccountID := "origin",
    showReblogs := true, notify := true }

/-- A migration environment in which follow creation fails for
follower f2 and everything else succeeds. -/
def redirectEnvFail : RedirectEnv :=
  { getAccountLocalFollowers := fun _ => .ok [followW1, followW2, followW3]
    getAccountByID := fun i => .ok { id := i, uri := "uri-" ++ i, username := i }
    followCreate := fun a _ _ _ => if a.id = "f2" then .error "boom" else .ok ()
    followRemove := fun _ _ => .ok () }

/-- A migration environment in which everything succeeds and the only
follower of origin is the target account itself. -/
def redirectEnvOk : RedirectEnv :=
  { getAccountLocalFollowers := fun _ => .ok [followWTarget]
    getAccountByID := fun i => .ok { id := i, uri := "uri-" ++ i, username := i }
    followCreate := fun _ _ _ _ => .ok ()
    followRemove := fun _ _ => .ok () }

/-- A migration environment whose local-followers lookup reports
no entries. -/
def redirectEnvNoEntries : RedirectEnv :=
  { getAccountLocalFollowers := fun _ => .noEntries
    getAccountByID := fun i => .ok { id := i, uri := "uri-" ++ i, username := i }
    followCreate := fun _ _ _ _ => .ok ()
    followRemove := fun _ _ => .ok () }

/-- A migration environment whose local-followers lookup fails with a
db error other than no-entries. -/
def redirectEnvLookupErr : RedirectEnv :=
  { getAccountLocalFollowers := fun _ => .err "boom"
    getAccountByID := fun i => .ok { id := i, uri := "uri-" ++ i, username := i }
    followCreate := fun _ _ _ _ => .ok ()
    followRemove := fun _ _ => .ok () }

/-! ## Theorems: counter manager -/

/-- All four counters of a stats record are non-negative. -/
def nonNeg (stats : AccountStats) : Prop :=
  0 ≤ stats.statusesCount ∧ 0 ≤ stats.followersCount
    ∧ 0 ≤ stats.followingCount ∧ 0 ≤ stats.followRequestsCount

theorem incStatuses_frame (stats : AccountStats) (t : Nat) :
    (incrementStatusesCountStats stats t).1.statusesCount = stats.statusesCount + 1
    ∧ (incrementStatusesCountStats stats t).1.lastStatusAt = t
    ∧ (incrementStatusesCountStats stats t).1.followersCount = stats.followersCount
    ∧ (incrementStatusesCountStats stats t).1.followingCount = stats.followingCount
    ∧ (incrementStatusesCountStats stats t).1.followRequestsCount
        = stats.followRequestsCount
    ∧ (incrementStatusesCountStats stats t).2 = ["statuses_count", "last_status_at"] :=
  ⟨rfl, rfl, rfl, rfl, rfl, rfl⟩

theorem decStatuses_frame (stats : AccountStats) :
    (decrementStatusesCountStats stats).1.statusesCount
        = (if stats.statusesCount - 1 < 0 then 0 else stats.statusesCount - 1)
    ∧ (decrementStatusesCountStats stats).1.lastStatusAt = stats.lastStatusAt
    ∧ (decrementStatusesCountStats stats).1.followersCount = stats.followersCount
    ∧ (decrementStatusesCountStats stats).1.followingCount = stats.followingCount
    ∧ (decrementStatusesCountStats stats).1.followRequestsCount
        = stats.followRequestsCount
    ∧ (decrementStatusesCountStats stats).2 = ["statuses_count"] := by
  unfold decrementStatusesCountStats
  dsimp only
  split <;> exact ⟨rfl, rfl, rfl, rfl, rfl, rfl⟩

theorem incFollowers_frame (stats : AccountStats) :
    (incrementFollowersCountStats stats).1.followersCount = stats.followersCount + 1
    ∧ (incrementFollowersCountStats stats).1.statusesCount = stats.statusesCount
    ∧ (incrementFollowersCountStats stats).1.lastStatusAt = stats.lastStatusAt
    ∧ (incrementFollowersCountStats stats).1.followingCount = stats.followingCount
    ∧ (incrementFollowersCountStats stats).1.followRequestsCount
        = stats.followRequestsCount
    ∧ (incrementFollowersCountStats stats).2 = ["followers_count"] :=
  ⟨rfl, rfl, rfl, rfl, rfl, rfl⟩

theorem decFollowers_frame (stats : AccountStats) :
    (decrementFollowersCountStats stats).1.followersCount
        = (if stats.followersCount - 1 < 0 then 0 else stats.followersCount - 1)
    ∧ (decrementFollowersCountStats stats).1.statusesCount = stats.statusesCount
    ∧ (decrementFollowersCountStats stats).1.lastStatusAt = stats.lastStatusAt
    ∧ (decrementFollowersCountStats stats).1.followingCount = stats.followingCount
    ∧ (decrementFollowersCountStats stats).1.followRequestsCount
        = stats.followRequestsCount
    ∧ (decrementFollowersCountStats stats).2 = ["followers_count"] := by
  unfold decrementFollowersCountStats
  dsimp only
  split <;> exact ⟨rfl, rfl, rfl, rfl, rfl, rfl⟩

theorem incFollowing_frame (stats : AccountStats) :
    (incrementFollowingCountStats stats).1.followingCount = stats.followingCount + 1
    ∧ (incrementFollowingCountStats stats).1.statusesCount = stats.statusesCount
    ∧ (incrementFollowingCountStats stats).1.lastStatusAt = stats.lastStatusAt
    ∧ (incrementFollowingCountStats stats).1.followersCount = stats.followersCount
    ∧ (incrementFollowingCountStats stats).1.followRequestsCount
        = stats.followRequestsCount
    ∧ (incrementFollowingCountStats stats).2 = ["following_count"] :=
  ⟨rfl, rfl, rfl, rfl, rfl, rfl⟩

theorem decFollowing_frame (stats : AccountStats) :
    (decrementFollowingCountStats stats).1.followingCount
        = (if stats.followingCount - 1 < 0 then 0 else stats.followingCount - 1)
    ∧ (decrementFollowingCountStats stats).1.statusesCount = stats.statusesCount
    ∧ (decrementFollowingCountStats stats).1.lastStatusAt = stats.lastStatusAt
    ∧ (decrementFollowingCountStats stats).1.followersCount = stats.followersCount
    ∧ (decrementFollowingCountStats stats).1.followRequestsCount
        = stats.followRequestsCount
    ∧ (decrementFollowingCountStats stats).2 = ["following_count"] := by
  unfold decrementFollowingCountStats
  dsimp only
  split <;> exact ⟨rfl, rfl, rfl, rfl, rfl, rfl⟩

theorem incFollowRequests_frame (stats : AccountStats) :
    (incrementFollowRequestsCountStats stats).1.followRequestsCount
        = stats.followRequestsCount + 1
    ∧ (incrementFollowRequestsCountStats stats).1.statusesCount = stats.statusesCount
    ∧ (incrementFollowRequestsCountStats stats).1.lastStatusAt = stats.lastStatusAt
    ∧ (incrementFollowRequestsCountStats stats).1.followersCount = stats.followersCount
    ∧ (incrementFollowRequestsCountStats stats).1.followingCount = stats.followingCount
    ∧ (incrementFollowRequestsCountStats stats).2 = ["follow_requests_count"] :=
  ⟨rfl, rfl, rfl, rfl, rfl, rfl⟩

theorem decFollowRequests_frame (stats : AccountStats) :
    (decrementFollowRequestsCountStats stats).1.followRequestsCount
        = (if stats.followRequestsCount - 1 < 0 then 0
           else stats.followRequestsCount - 1)
    ∧ (decrementFollowRequestsCountStats stats).1.statusesCount = stats.statusesCount
    ∧ (decrementFollowRequestsCountStats stats).1.lastStatusAt = stats.lastStatusAt
    ∧ (decrementFollowRequestsCountStats stats).1.followersCount = stats.followersCount
    ∧ (decrementFollowRequestsCountStats stats).1.followingCount = stats.followingCount
    ∧ (decrementFollowRequestsCountStats stats).2 = ["follow_requests_count"] := by
  unfold decrementFollowRequestsCountStats
  dsimp only
  split <;> exact ⟨rfl, rfl, rfl, rfl, rfl, rfl⟩

theorem applyDecOp_nonNeg (op : DecOp) (stats : AccountStats) (h : nonNeg stats) :
    nonNeg (applyDecOp op stats) := by
  obtain ⟨h1, h2, h3, h4⟩ := h
  cases op <;>
    simp only [applyDecOp, decrementStatusesCountStats, decrementFollowersCountStats,
      decrementFollowingCountStats, decrementFollowRequestsCountStats, nonNeg] <;>
    split <;> simp_all

theorem applyDecOps_nonNeg (ops : List DecOp) (stats : AccountStats)
    (h : nonNeg stats) : nonNeg (applyDecOps ops stats) := by
  induction ops generalizing stats with
  | nil => exact h
  | cons op rest ih => exact ih _ (applyDecOp_nonNeg op stats h)

theorem decStatusesStats_nonneg (stats : AccountStats) :
    0 ≤ (decrementStatusesCountStats stats).1.statusesCount := by
  rw [(decStatuses_frame stats).1]
  split <;> omega

theorem decFollowersStats_nonneg (stats : AccountStats) :
    0 ≤ (decrementFollowersCountStats stats).1.followersCount := by
  rw [(decFollowers_frame stats).1]
  split <;> omega

theorem decFollowingStats_nonneg (stats : AccountStats) :
    0 ≤ (decrementFollowingCountStats stats).1.followingCount := by
  rw [(decFollowing_frame stats).1]
  split <;> omega

theorem decFollowRequestsStats_nonneg (stats : AccountStats) :
    0 ≤ (decrementFollowRequestsCountStats stats).1.followRequestsCount := by
  rw [(decFollowRequests_frame stats).1]
  split <;> omega

theorem decrementStatusesCount_ok (env : StatsEnv) (acct : Account)
    (out : AccountStats) (h : decrementStatusesCount env acct = .ok out) :
    0 ≤ out.statusesCount := by
  unfold decrementStatusesCount at h
  cases hp : env.populateAccountStats acct.id with
  | error e => rw [hp] at h; exact absurd h (by simp)
  | ok stats =>
      rw [hp] at h
      dsimp only at h
      cases hu : env.updateAccountStats (decrementStatusesCountStats stats).1
          (decrementStatusesCountStats stats).2 with
      | some e => rw [hu] at h; exact absurd h (by simp)
      | none =>
          rw [hu] at h
          cases h
          exact decStatusesStats_nonneg stats

theorem decrementFollowersCount_ok (env : StatsEnv) (acct : Account)
    (out : AccountStats) (h : decrementFollowersCount env acct = .ok out) :
    0 ≤ out.followersCount := by
  unfold decrementFollowersCount at h
  cases hp : env.populateAccountStats acct.id with
  | error e => rw [hp] at h; exact absurd h (by simp)
  | ok stats =>
      rw [hp] at h
      dsimp only at h
      cases hu : env.updateAccountStats (decrementFollowersCountStats stats).1
          (decrementFollowersCountStats stats).2 with
      | some e => rw [hu] at h; exact absurd h (by simp)
      | none =>
          rw [hu] at h
          cases h
          exact decFollowersStats_nonneg stats

theorem decrementFollowingCount_ok (env : StatsEnv) (acct : Account)
    (out : AccountStats) (h : decrementFollowingCount env acct = .ok out) :
    0 ≤ out.followingCount := by
  unfold decrementFollowingCount at h
  cases hp : env.populateAccountStats acct.id with
  | error e => rw [hp] at h; exact absurd h (by simp)
  | ok stats =>
      rw [hp] at h
      dsimp only at h
      cases hu : env.updateAccountStats (decrementFollowingCountStats stats).1
          (decrementFollowingCountStats stats).2 with
      | some e => rw [hu] at h; exact absurd h (by simp)
      | none =>
          rw [hu] at h
          cases h
          exact decFollowingStats_nonneg stats

theorem decrementFollowRequestsCount_ok (env : StatsEnv) (acct : Account)
    (out : AccountStats) (h : decrementFollowRequestsCount env acct = .ok out) :
    0 ≤ out.followRequestsCount := by
  unfold decrementFollowRequestsCount at h
  cases hp : env.populateAccountStats acct.id with
  | error e => rw [hp] at h; exact absurd h (by simp)
  | ok stats =>
      rw [hp] at h
      dsimp only at h
      cases hu : env.updateAccountStats (decrementFollowRequestsCountStats stats).1
          (decrementFollowRequestsCountStats stats).2 with
      | some e => rw [hu] at h; exact absurd h (by simp)
      | none =>
          rw [hu] at h
          cases h
          exact decFollowRequestsStats_nonneg stats

/-- C2: every decrement operation clamps at zero (subtracting one from
a value that would go negative writes exactly zero), the stats record
any decrement operation hands to UpdateAccountStats carries a
non-negative targeted counter, and consequently any sequence of
decrement operations starting from non-negative counters leaves every
counter non-negative. -/
theorem counters_never_negative (stats : AccountStats) (ops : List DecOp)
    (h : nonNeg stats) :
    nonNeg (applyDecOps ops stats)
    ∧ (decrementStatusesCountStats stats).1.statusesCount
        = (if stats.statusesCount - 1 < 0 then 0 else stats.statusesCount - 1)
    ∧ (decrementFollowersCountStats stats).1.followersCount
        = (if stats.followersCount - 1 < 0 then 0 else stats.followersCount - 1)
    ∧ (decrementFollowingCountStats stats).1.followingCount
        = (if stats.followingCount - 1 < 0 then 0 else stats.followingCount - 1)
    ∧ (decrementFollowRequestsCountStats stats).1.followRequestsCount
        = (if stats.followRequestsCount - 1 < 0 then 0
           else stats.followRequestsCount - 1)
    ∧ (∀ env acct out, decrementStatusesCount env acct = .ok out →
        0 ≤ out.statusesCount)
    ∧ (∀ env acct out, decrementFollowersCount env acct = .ok out →
        0 ≤ out.followersCount)
    ∧ (∀ env acct out, decrementFollowingCount env acct = .ok out →
        0 ≤ out.followingCount)
    ∧ (∀ env acct out, decrementFollowRequestsCount env acct = .ok out →
        0 ≤ out.followRequestsCount) :=
  ⟨applyDecOps_nonNeg ops stats h,
   (decStatuses_frame stats).1,
   (decFollowers_frame stats).1,
   (decFollowing_frame stats).1,
   (decFollowRequests_frame stats).1,
   decrementStatusesCount_ok,
   decrementFollowersCount_ok,
   decrementFollowingCount_ok,
   decrementFollowRequestsCount_ok⟩

/-- Witness for counters_never_negative at sampleStats (whose statuses
and follow-request counters are already zero) under a three-decrement
sequence and the all-ok stats environment. -/
theorem counters_never_negative_witness :
    nonNeg (applyDecOps [DecOp.statuses, DecOp.followers, DecOp.statuses] sampleStats)
    ∧ (decrementStatusesCountStats sampleStats).1.statusesCount
        = (if sampleStats.statusesCount - 1 < 0 then 0
           else sampleStats.statusesCount - 1)
    ∧ 0 ≤ sampleStats.statusesCount := by
  have h := counters_never_negative sampleStats
    [DecOp.statuses, DecOp.followers, DecOp.statuses]
    (by unfold nonNeg; decide)
  exact ⟨h.1, h.2.1, h.2.2.2.2.2.1 statsEnvOk acctW sampleStats rfl⟩

/-- C9: each counter operation applies its delta to exactly the one
counter field it is named for — statuses increments additionally stamp
last_status_at with the triggering status's creation time — leaves
every other stats field unchanged, and passes exactly the touched
column names to UpdateAccountStats. -/
theorem counter_ops_frame (stats : AccountStats) (t : Nat) :
    ((incrementStatusesCountStats stats t).1.statusesCount = stats.statusesCount + 1
      ∧ (incrementStatusesCountStats stats t).1.lastStatusAt = t
      ∧ (incrementStatusesCountStats stats t).1.followersCount = stats.followersCount
      ∧ (incrementStatusesCountStats stats t).1.followingCount = stats.followingCount
      ∧ (incrementStatusesCountStats stats t).1.followRequestsCount
          = stats.followRequestsCount
      ∧ (incrementStatusesCountStats stats t).2
          = ["statuses_count", "last_status_at"])
    ∧ ((decrementStatusesCountStats stats).1.statusesCount
          = (if stats.statusesCount - 1 < 0 then 0 else stats.statusesCount - 1)
      ∧ (decrementStatusesCountStats stats).1.lastStatusAt = stats.lastStatusAt
      ∧ (decrementStatusesCountStats stats).1.followersCount = stats.followersCount
      ∧ (decrementStatusesCountStats stats).1.followingCount = stats.followingCount
      ∧ (decrementStatusesCountStats stats).1.followRequestsCount
          = stats.followRequestsCount
      ∧ (decrementStatusesCountStats stats).2 = ["statuses_count"])
    ∧ ((incrementFollowersCountStats stats).1.followersCount
          = stats.followersCount + 1
      ∧ (incrementFollowersCountStats stats).1.statusesCount = stats.statusesCount
      ∧ (incrementFollowersCountStats stats).1.lastStatusAt = stats.lastStatusAt
      ∧ (incrementFollowersCountStats stats).1.followingCount = stats.followingCount
      ∧ (incrementFollowersCountStats stats).1.followRequestsCount
          = stats.followRequestsCount
      ∧ (incrementFollowersCountStats stats).2 = ["followers_count"])
    ∧ ((decrementFollowersCountStats stats).1.followersCount
          = (if stats.followersCount - 1 < 0 then 0 else stats.followersCount - 1)
      ∧ (decrementFollowersCountStats stats).1.statusesCount = stats.statusesCount
      ∧ (decrementFollowersCountStats stats).1.lastStatusAt = stats.lastStatusAt
      ∧ (decrementFollowersCountStats stats).1.followingCount = stats.followingCount
      ∧ (decrementFollowersCountStats stats).1.followRequestsCount
          = stats.followRequestsCount
      ∧ (decrementFollowersCountStats stats).2 = ["followers_count"])
    ∧ ((incrementFollowingCountStats stats).1.followingCount
          = stats.followingCount + 1
      ∧ (incrementFollowingCountStats stats).1.statusesCount = stats.statusesCount
      ∧ (incrementFollowingCountStats stats).1.lastStatusAt = stats.lastStatusAt
      ∧ (incrementFollowingCountStats stats).1.followersCount = stats.followersCount
      ∧ (incrementFollowingCountStats stats).1.followRequestsCount
          = stats.followRequestsCount
      ∧ (incrementFollowingCountStats stats).2 = ["following_count"])
    ∧ ((decrementFollowingCountStats stats).1.followingCount
          = (if stats.followingCount - 1 < 0 then 0 else stats.followingCount - 1)
      ∧ (decrementFollowingCountStats stats).1.statusesCount = stats.statusesCount
      ∧ (decrementFollowingCountStats stats).1.lastStatusAt = stats.lastStatusAt
      ∧ (decrementFollowingCountStats stats).1.followersCount = stats.followersCount
      ∧ (decrementFollowingCountStats stats).1.followRequestsCount
          = stats.followRequestsCount
      ∧ (decrementFollowingCountStats stats).2 = ["following_count"])
    ∧ ((incrementFollowRequestsCountStats stats).1.followRequestsCount
          = stats.followRequestsCount + 1
      ∧ (incrementFollowRequestsCountStats stats).1.statusesCount
          = stats.statusesCount
      ∧ (incrementFollowRequestsCountStats stats).1.lastStatusAt = stats.lastStatusAt
      ∧ (incrementFollowRequestsCountStats stats).1.followersCount
          = stats.followersCount
      ∧ (incrementFollowRequestsCountStats stats).1.followingCount
          = stats.followingCount
      ∧ (incrementFollowRequestsCountStats stats).2 = ["follow_requests_count"])
    ∧ ((decrementFollowRequestsCountStats stats).1.followRequestsCount
          = (if stats.followRequestsCount - 1 < 0 then 0
             else stats.followRequestsCount - 1)
      ∧ (decrementFollowRequestsCountStats stats).1.statusesCount
          = stats.statusesCount
      ∧ (decrementFollowRequestsCountStats stats).1.lastStatusAt = stats.lastStatusAt
      ∧ (decrementFollowRequestsCountStats stats).1.followersCount
          = stats.followersCount
      ∧ (decrementFollowRequestsCountStats stats).1.followingCount
          = stats.followingCount
      ∧ (decrementFollowRequestsCountStats stats).2 = ["follow_requests_count"]) :=
  ⟨incStatuses_frame stats t, decStatuses_frame stats,
   incFollowers_frame stats, decFollowers_frame stats,
   incFollowing_frame stats, decFollowing_frame stats,
   incFollowRequests_frame stats, decFollowRequests_frame stats⟩

/-! ## Theorems: approval issuer -/

theorem approveFave_ok_shape (env : ApprovalEnv) (fave : StatusFave)
    (a : InteractionApproval) (f : StatusFave) (cols : List String)
    (h : approveFave env fave = .ok (a, f, cols)) :
    f = { fave with
            pendingApproval := false
            preApproved := false
            approvedByURI := a.uri }
    ∧ cols = ["pending_approval", "approved_by_uri"]
    ∧ a.interactionType = InteractionType.like
    ∧ a.accountID = fave.targetAccountID
    ∧ a.interactingAccountID = fave.accountID
    ∧ a.interactionURI = fave.uri := by
  unfold approveFave at h
  dsimp only at h
  split at h
  · exact Except.noConfusion h
  · split at h
    · exact Except.noConfusion h
    · simp only [Except.ok.injEq, Prod.mk.injEq] at h
      obtain ⟨ha, hf, hc⟩ := h
      subst ha
      subst hf
      subst hc
      exact ⟨rfl, rfl, rfl, rfl, rfl, rfl⟩

theorem approveReply_ok_shape (env : ApprovalEnv) (status : Status)
    (a : InteractionApproval) (f : Status) (cols : List String)
    (h : approveReply env status = .ok (a, f, cols)) :
    f = { status with
            pendingApproval := false
            preApproved := false
            approvedByURI := a.uri }
    ∧ cols = ["pending_approval", "approved_by_uri"]
    ∧ a.interactionType = InteractionType.reply
    ∧ a.accountID = status.inReplyToAccountID
    ∧ a.interactingAccountID = status.accountID
    ∧ a.interactionURI = status.uri := by
  unfold approveReply at h
  dsimp only at h
  split at h
  · exact Except.noConfusion h
  · split at h
    · exact Except.noConfusion h
    · simp only [Except.ok.injEq, Prod.mk.injEq] at h
      obtain ⟨ha, hf, hc⟩ := h
      subst ha
      subst hf
      subst hc
      exact ⟨rfl, rfl, rfl, rfl, rfl, rfl⟩

theorem approveAnnounce_ok_shape (env : ApprovalEnv) (boost : Status)
    (a : InteractionApproval) (f : Status) (cols : List String)
    (h : approveAnnounce env boost = .ok (a, f, cols)) :
    f = { boost with
            pendingApproval := false
            preApproved := false
            approvedByURI := a.uri }
    ∧ cols = ["pending_approval", "approved_by_uri"]
    ∧ a.interactionType = InteractionType.reply
    ∧ a.accountID = boost.boostOfAccountID
    ∧ a.interactingAccountID = boost.accountID
    ∧ a.interactionURI = boost.uri := by
  unfold approveAnnounce at h
  dsimp only at h
  split at h
  · exact Except.noConfusion h
  · split at h
    · exact Except.noConfusion h
    · simp only [Except.ok.injEq, Prod.mk.injEq] at h
      obtain ⟨ha, hf, hc⟩ := h
      subst ha
      subst hf
      subst hc
      exact ⟨rfl, rfl, rfl, rfl, rfl, rfl⟩

/-- C1: the approval approveAnnounce builds for a boost carries the
InteractionReply tag, not the announce/boost kind — evaluated at a
concrete boost with all persistence succeeding.  This contradicts the
function's own stated purpose (an interactionApproval for an announce)
and the spec's requirement that the interaction-kind tag match the
subject. -/
theorem approveAnnounce_tags_reply :
    (approveAnnounce okApprovalEnv sampleBoost).map
        (fun out => out.1.interactionType)
      = Except.ok InteractionType.reply
    ∧ InteractionType.reply ≠ InteractionType.announce :=
  ⟨rfl, by decide⟩

/-- C8 counterexample: at a concrete fave whose pre-approval flag is
set, approveFave changes that flag (true to false) yet the column list
handed to UpdateStatusFave omits pre_approved — so a changed field is
left out of the persisted field list. -/
theorem approveFave_pre_approved_not_persisted :
    (approveFave okApprovalEnv sampleFave).map
        (fun out => (out.2.1.preApproved, out.2.2))
      = Except.ok (false, ["pending_approval", "approved_by_uri"])
    ∧ sampleFave.preApproved = true
    ∧ "pre_approved" ∉ ["pending_approval", "approved_by_uri"] :=
  ⟨rfl, rfl, by decide⟩

/-- C8 (amended): every approval operation mutates the subject by
clearing its pending-approval flag, clearing its pre-approval flag and
setting its approving-URI to the new approval's URI, changing no other
field of the subject; the partial persistence names exactly the
pending_approval and approved_by_uri columns — the cleared pre-approval
flag is not included in the persisted field list. -/
theorem approval_mutation_frame :
    (∀ env fave a f cols, approveFave env fave = .ok (a, f, cols) →
      f = { fave with
              pendingApproval := false
              preApproved := false
              approvedByURI := a.uri }
      ∧ cols = ["pending_approval", "approved_by_uri"])
    ∧ (∀ env status a f cols, approveReply env status = .ok (a, f, cols) →
      f = { status with
              pendingApproval := false
              preApproved := false
              approvedByURI := a.uri }
      ∧ cols = ["pending_approval", "approved_by_uri"])
    ∧ (∀ env boost a f cols, approveAnnounce env boost = .ok (a, f, cols) →
      f = { boost with
              pendingApproval := false
              preApproved := false
              approvedByURI := a.uri }
      ∧ cols = ["pending_approval", "approved_by_uri"]) :=
  ⟨fun env fave a f cols h =>
    ⟨(approveFave_ok_shape env fave a f cols h).1,
     (approveFave_ok_shape env fave a f cols h).2.1⟩,
   fun env status a f cols h =>
    ⟨(approveReply_ok_shape env status a f cols h).1,
     (approveReply_ok_shape env status a f cols h).2.1⟩,
   fun env boost a f cols h =>
    ⟨(approveAnnounce_ok_shape env boost a f cols h).1,
     (approveAnnounce_ok_shape env boost a f cols h).2.1⟩⟩

/-- Witness for approval_mutation_frame: the three approval operations
evaluated at concrete subjects under the all-ok environment. -/
theorem approval_mutation_frame_witness :
    (faveMutatedW
        = { sampleFave with
              pendingApproval := false
              preApproved := false
              approvedByURI := faveApprovalW.uri }
      ∧ (["pending_approval", "approved_by_uri"] : List String)
          = ["pending_approval", "approved_by_uri"])
    ∧ (replyMutatedW
        = { sampleReply with
              pendingApproval := false
              preApproved := false
              approvedByURI := replyApprovalW.uri }
      ∧ (["pending_approval", "approved_by_uri"] : List String)
          = ["pending_approval", "approved_by_uri"])
    ∧ (announceMutatedW
        = { sampleBoost with
              pendingApproval := false
              preApproved := false
              approvedByURI := announceApprovalW.uri }
      ∧ (["pending_approval", "approved_by_uri"] : List String)
          = ["pending_approval", "approved_by_uri"]) :=
  ⟨approval_mutation_frame.1 okApprovalEnv sampleFave faveApprovalW faveMutatedW
      ["pending_approval", "approved_by_uri"] rfl,
   approval_mutation_frame.2.1 okApprovalEnv sampleReply replyApprovalW
      replyMutatedW ["pending_approval", "approved_by_uri"] rfl,
   approval_mutation_frame.2.2 okApprovalEnv sampleBoost announceApprovalW
      announceMutatedW ["pending_approval", "approved_by_uri"] rfl⟩

/-! ## Theorems: deletion cascade -/

theorem callsOf_append (a b : List (List WipeCall × List String)) :
    callsOf (a ++ b) = callsOf a ++ callsOf b := by
  simp [callsOf]

theorem stepOf_fst (call : WipeCall) (result : Option String)
    (label : String) :
    (stepOf call result label).1 = [call] := rfl

theorem callsOf_nil : callsOf [] = [] := rfl

theorem callsOf_cons (p : List WipeCall × List String)
    (rest : List (List WipeCall × List String)) :
    callsOf (p :: rest) = p.1 ++ callsOf rest := by
  simp [callsOf]

theorem callsOf_map_stepOf {α : Type} (l : List α) (c : α → WipeCall)
    (r : α → Option String) (m : String) :
    callsOf (l.map fun x => stepOf (c x) (r x) m) = l.map c := by
  induction l with
  | nil => rfl
  | cons x xs ih => simpa [callsOf, stepOf] using ih

theorem callsOf_map_boostStep (env : WipeEnv) (l : List Status) :
    callsOf (l.map (boostStep env))
      = (l.map fun b =>
          [WipeCall.deleteStatusFromTimelines b.id,
           WipeCall.deleteStatusByID b.id]).flatten := by
  induction l with
  | nil => rfl
  | cons b bs ih => simpa [callsOf, boostStep, stepOf] using ih

/-- The calls of the cascade are the full expected trace: a function of
the status, the flag and the returned boost list only, not of any
failure outcome. -/
theorem wipe_calls_eq (env : WipeEnv) (s : Status) (d : Bool) :
    (wipeStatus env s d).1 = wipeTrace s d (boostsReturned env s) := by
  unfold wipeStatus wipeTrace wipeSteps boostsReturned
  cases hb : env.getStatusBoosts s.id with
  | ok boosts =>
      cases d <;> by_cases hp : s.pollID = "" <;>
        simp [hb, hp, callsOf_append, callsOf_cons, callsOf_nil,
          callsOf_map_stepOf, callsOf_map_boostStep, stepOf_fst]
  | error e =>
      cases d <;> by_cases hp : s.pollID = "" <;>
        simp [hb, hp, callsOf_append, callsOf_cons, callsOf_nil,
          callsOf_map_stepOf, callsOf_map_boostStep, stepOf_fst]

/-- C3: the deletion cascade attempts every step regardless of the
failure pattern — the call trace equals the full expected trace
determined by the status, the deleteAttachments flag and the boost list
the fetch returned, whatever the collaborators' failure answers are. -/
theorem wipeStatus_attempts_all (env : WipeEnv) (s : Status) (d : Bool) :
    (wipeStatus env s d).1 = wipeTrace s d (boostsReturned env s) :=
  wipe_calls_eq env s d

/-- C4: the cascade returns success exactly when the error aggregator
is empty, and otherwise one combined error carrying every appended
step failure. -/
theorem wipeStatus_combined_error (env : WipeEnv) (s : Status) (d : Bool) :
    (wipeStatusResult env s d = none ↔ (wipeStatus env s d).2 = [])
    ∧ (wipeStatusResult env s d = none
        ∨ wipeStatusResult env s d = some ((wipeStatus env s d).2)) := by
  by_cases he : (wipeStatus env s d).2 = [] <;>
    simp [wipeStatusResult, MultiError.combine, he]

theorem mem_wipeTrace_poll (s : Status) (d : Bool) (boosts : List Status) :
    (WipeCall.deletePollByID s.pollID ∈ wipeTrace s d boosts
      ∧ WipeCall.deletePollVotes s.pollID ∈ wipeTrace s d boosts
      ∧ WipeCall.schedulerCancel s.pollID ∈ wipeTrace s d boosts)
      ↔ s.pollID ≠ "" := by
  by_cases hp : s.pollID = "" <;> cases d <;> simp [wipeTrace, hp]

/-- C7: poll cleanup (poll deletion, vote deletion, scheduler cancel)
is attempted exactly when the status has a non-empty poll id, and the
entire outcome of the cascade — trace and collected errors alike — is
unchanged under any scheduler-cancel behaviour, so the cancel result
never contributes to the combined error. -/
theorem wipeStatus_poll_cleanup (env : WipeEnv) (g : String → Bool)
    (s : Status) (d : Bool) :
    ((WipeCall.deletePollByID s.pollID ∈ (wipeStatus env s d).1
      ∧ WipeCall.deletePollVotes s.pollID ∈ (wipeStatus env s d).1
      ∧ WipeCall.schedulerCancel s.pollID ∈ (wipeStatus env s d).1)
      ↔ s.pollID ≠ "")
    ∧ wipeStatus { env with schedulerCancel := g } s d = wipeStatus env s d := by
  constructor
  · rw [wipe_calls_eq env s d]
    exact mem_wipeTrace_poll s d (boostsReturned env s)
  · rfl

/-! ## Theorems: follower migrator -/

theorem processFollowers_true_iff (env : RedirectEnv) (t : Account)
    (l : List Follow) :
    (processFollowers env t l).2 = true
      ↔ ∀ f ∈ l, (processFollower env t f).2 = true := by
  induction l with
  | nil => simp [processFollowers]
  | cons f rest ih =>
      by_cases hf : (processFollower env t f).2 = true <;>
        simp [processFollowers, hf, ih]

theorem processFollowers_cons_false (env : RedirectEnv) (t : Account)
    (f : Follow) (post : List Follow)
    (h : (processFollower env t f).2 = false) :
    processFollowers env t (f :: post) = ((processFollower env t f).1, false) := by
  simp [processFollowers, h]

theorem processFollowers_append_true (env : RedirectEnv) (t : Account)
    (pre rest : List Follow)
    (h : ∀ g ∈ pre, (processFollower env t g).2 = true) :
    processFollowers env t (pre ++ rest)
      = ((pre.map fun g => (processFollower env t g).1).flatten
          ++ (processFollowers env t rest).1,
         (processFollowers env t rest).2) := by
  induction pre with
  | nil => simp
  | cons g pre ih =>
      have hg := h g (by simp)
      have ih2 := ih fun x hx => h x (by simp [hx])
      simp [processFollowers, hg, ih2]

theorem processFollower_no_self_create (env : RedirectEnv) (ta : Account)
    (f : Follow) (r n : Bool) :
    RedirectCall.followCreate ta.id ta.id r n ∉ (processFollower env ta f).1 := by
  unfold processFollower
  split
  · simp
  · split
    · rename_i hguard
      have hguard2 : ta.id ≠ f.accountID := fun h => hguard h.symm
      split
      · simp [hguard2]
      · split <;> simp [hguard2]
    · split <;> simp

theorem processFollowers_no_self_create (env : RedirectEnv) (ta : Account)
    (l : List Follow) (r n : Bool) :
    RedirectCall.followCreate ta.id ta.id r n ∉ (processFollowers env ta l).1 := by
  induction l with
  | nil => simp [processFollowers]
  | cons f rest ih =>
      by_cases hf : (processFollower env ta f).2 = true <;>
        simp [processFollowers, hf, ih, processFollower_no_self_create env ta f r n]

theorem processFollower_self_remove (env : RedirectEnv) (ta : Account)
    (f : Follow) (a : Account) (hself : f.accountID = ta.id)
    (hacct : env.getAccountByID f.accountID = .ok a) :
    RedirectCall.followRemove f.accountID f.targetAccountID
      ∈ (processFollower env ta f).1 := by
  unfold processFollower
  rw [hacct]
  dsimp only
  rw [if_neg (by simp [hself])]
  split <;> simp

theorem mem_processFollowers_head (env : RedirectEnv) (ta : Account)
    (f : Follow) (post : List Follow) (x : RedirectCall)
    (hx : x ∈ (processFollower env ta f).1) :
    x ∈ (processFollowers env ta (f :: post)).1 := by
  by_cases hf : (processFollower env ta f).2 = true <;>
    simp [processFollowers, hf, hx]

/-- C5: the follower migrator returns true exactly when every follower
was processed without error, and on the first failing follower it
returns false at once — the calls made are the lookup, the calls for
the successfully processed prefix, and the calls for the failing
follower, with nothing for the remaining followers. -/
theorem redirectFollowers_fail_fast (env : RedirectEnv)
    (origin target : Account) (followers pre post : List Follow) (f : Follow)
    (hlook : env.getAccountLocalFollowers origin.id = .ok followers) :
    ((redirectFollowers env origin target).2 = true
      ↔ ∀ g ∈ followers, (processFollower env target g).2 = true)
    ∧ (followers = pre ++ f :: post →
       (∀ g ∈ pre, (processFollower env target g).2 = true) →
       (processFollower env target f).2 = false →
       redirectFollowers env origin target
         = (RedirectCall.getLocalFollowers origin.id ::
             ((pre.map fun g => (processFollower env target g).1).flatten
               ++ (processFollower env target f).1), false)) := by
  unfold redirectFollowers
  rw [hlook]
  dsimp only
  constructor
  · exact processFollowers_true_iff env target followers
  · intro heq hpre hf
    subst heq
    rw [processFollowers_append_true env target pre (f :: post) hpre,
      processFollowers_cons_false env target f post hf]

/-- Witness for redirectFollowers_fail_fast: under redirectEnvFail the
second of three followers fails at follow creation, so the migration
returns false with a trace that stops at that follower. -/
theorem redirectFollowers_fail_fast_witness :
    ((redirectFollowers redirectEnvFail originAcctW targetAcctW).2 = true
      ↔ ∀ g ∈ [followW1, followW2, followW3],
          (processFollower redirectEnvFail targetAcctW g).2 = true)
    ∧ redirectFollowers redirectEnvFail originAcctW targetAcctW
        = (RedirectCall.getLocalFollowers originAcctW.id ::
            (([followW1].map fun g =>
                (processFollower redirectEnvFail targetAcctW g).1).flatten
              ++ (processFollower redirectEnvFail targetAcctW followW2).1),
           false) := by
  have h := redirectFollowers_fail_fast redirectEnvFail originAcctW targetAcctW
    [followW1, followW2, followW3] [followW1] [followW3] followW2 rfl
  exact ⟨h.1, h.2 rfl (by decide) (by decide)⟩

/-- C6: no self-follow toward the migration target is ever attempted —
no follow-creation call whose follower is the target itself appears in
any trace — while a follower that is the target, once reached with its
account resolved, still has its old follow of the origin retracted. -/
theorem redirectFollowers_no_self_follow (env : RedirectEnv)
    (origin target : Account) :
    (∀ r n, RedirectCall.followCreate target.id target.id r n
        ∉ (redirectFollowers env origin target).1)
    ∧ (∀ followers pre post f a,
        env.getAccountLocalFollowers origin.id = .ok followers →
        followers = pre ++ f :: post →
        (∀ g ∈ pre, (processFollower env target g).2 = true) →
        f.accountID = target.id →
        env.getAccountByID f.accountID = .ok a →
        RedirectCall.followRemove f.accountID f.targetAccountID
          ∈ (redirectFollowers env origin target).1) := by
  constructor
  · intro r n
    unfold redirectFollowers
    cases env.getAccountLocalFollowers origin.id <;>
      simp [processFollowers_no_self_create]
  · intro followers pre post f a hlook heq hpre hself hacct
    unfold redirectFollowers
    rw [hlook]
    dsimp only
    subst heq
    rw [processFollowers_append_true env target pre (f :: post) hpre]
    have hmem := mem_processFollowers_head env target f post _
      (processFollower_self_remove env target f a hself hacct)
    simp [hmem]

/-- Witness for redirectFollowers_no_self_follow: under redirectEnvOk
the only follower of origin is the target account itself; no self
follow-creation appears and the old follow is still removed. -/
theorem redirectFollowers_no_self_follow_witness :
    (RedirectCall.followCreate targetAcctW.id targetAcctW.id true false
      ∉ (redirectFollowers redirectEnvOk originAcctW targetAcctW).1)
    ∧ RedirectCall.followRemove followWTarget.accountID
        followWTarget.targetAccountID
        ∈ (redirectFollowers redirectEnvOk originAcctW targetAcctW).1 := by
  have h := redirectFollowers_no_self_follow redirectEnvOk originAcctW targetAcctW
  exact ⟨h.1 true false,
    h.2 [followWTarget] [] [] followWTarget
      { id := "target", uri := "uri-target", username := "target" }
      rfl rfl (by simp) rfl rfl⟩

/-- C10: a no-entries result from the local-followers lookup is treated
as an empty follower set — the migration returns true with no further
calls — while any other lookup error returns false. -/
theorem redirectFollowers_noEntries (env : RedirectEnv)
    (origin target : Account) :
    (env.getAccountLocalFollowers origin.id = .noEntries →
      redirectFollowers env origin target
        = ([RedirectCall.getLocalFollowers origin.id], true))
    ∧ (∀ e, env.getAccountLocalFollowers origin.id = .err e →
      redirectFollowers env origin target
        = ([RedirectCall.getLocalFollowers origin.id], false)) := by
  constructor
  · intro h
    unfold redirectFollowers
    rw [h]
  · intro e h
    unfold redirectFollowers
    rw [h]

/-- Witness for redirectFollowers_noEntries under the two concrete
lookup environments. -/
theorem redirectFollowers_noEntries_witness :
    redirectFollowers redirectEnvNoEntries originAcctW targetAcctW
      = ([RedirectCall.getLocalFollowers originAcctW.id], true)
    ∧ redirectFollowers redirectEnvLookupErr originAcctW targetAcctW
      = ([RedirectCall.getLocalFollowers originAcctW.id], false) :=
  ⟨(redirectFollowers_noEntries redirectEnvNoEntries originAcctW targetAcctW).1
      rfl,
   (redirectFollowers_noEntries redirectEnvLookupErr originAcctW targetAcctW).2
      "boom" rfl⟩

end GtsWorkers
